import Mathlib

/-!
Shallow embedding of `Tarea4pilares.py`: a sensor-monitoring engine with a
sliding-window reading buffer per sensor, per-variant alert predicates, and
an alert manager that evaluates sensors and dispatches notifications.

Python floats are modelled as exact rationals (`ℚ`); Python `int` as `ℤ`;
timestamps (`datetime.now()`) as an abstract `ℕ` parameter; a notifier is
identified by its destination string and a `send` call is recorded as a
(destination, message) pair.
-/

/-- `class NivelAlerta(Enum)`: NORMAL / ADVERTENCIA / CRITICO. -/
inductive NivelAlerta
  | NORMAL
  | ADVERTENCIA
  | CRITICO
deriving DecidableEq, Repr

/-- The three concrete `Sensor` subclasses, each with its threshold fields
(`SensorTemperatura.umbral`, `SensorVibracion.rms_umbral`,
`SensorPresion.presion_max` / `presion_min`). -/
inductive SensorKind
  | temperatura (umbral : ℚ)
  | vibracion (rms_umbral : ℚ)
  | presion (presion_max presion_min : ℚ)
deriving DecidableEq, Repr

/-- `@dataclass class Sensor`: id, window size `ventana`, calibration offset
`_calibracion`, and the reading buffer `_buffer` (oldest first). The
subclass tag and its thresholds live in `kind`. -/
structure Sensor where
  id : String
  ventana : ℤ
  calibracion : ℚ
  buffer : List ℚ
  kind : SensorKind
deriving DecidableEq, Repr

/-- `Sensor.leer`: `v = valor + self._calibracion; self._buffer.append(v);
if len(self._buffer) > self.ventana: self._buffer.pop(0)`. -/
def leer (s : Sensor) (valor : ℚ) : Sensor :=
  let v := valor + s.calibracion
  let b := s.buffer ++ [v]
  if (b.length : ℤ) > s.ventana then { s with buffer := b.drop 1 }
  else { s with buffer := b }

/-- Feeding a sequence of raw readings one by one through `leer`. -/
def leerAll (s : Sensor) (vs : List ℚ) : Sensor :=
  vs.foldl leer s

/-- `Sensor.promedio`: `mean(self._buffer) if self._buffer else 0.0`. -/
def promedio (s : Sensor) : ℚ :=
  if s.buffer = [] then 0 else s.buffer.sum / s.buffer.length

/-- The per-variant `en_alerta` predicates:
temperatura: `self.promedio >= self.umbral`;
vibracion: `abs(self.promedio) >= self.rms_umbral`;
presion: `not (self.presion_min <= self.promedio <= self.presion_max)`. -/
def en_alerta (s : Sensor) : Bool :=
  match s.kind with
  | .temperatura umbral => decide (promedio s ≥ umbral)
  | .vibracion rms_umbral => decide (|promedio s| ≥ rms_umbral)
  | .presion presion_max presion_min =>
      !decide (presion_min ≤ promedio s ∧ promedio s ≤ presion_max)

/-- The radicand of `SensorVibracion.calcular_rms`:
`sum(x**2 for x in self._buffer) / len(self._buffer)` when the buffer is
nonempty, else `0.0`. The source returns this value raised to `0.5`; since
square root is monotone and both sides are nonnegative, `rms ≥ t` for a
threshold `t ≥ 0` is equivalent to `calcular_rms_sq ≥ t^2`, which is how
comparisons against the RMS value are stated below. -/
def calcular_rms_sq (s : Sensor) : ℚ :=
  if s.buffer = [] then 0
  else (s.buffer.map (fun x => x ^ 2)).sum / s.buffer.length

/-- Round a rational to the nearest integer, ties to even — the rounding
Python's fixed-point float formatting uses (exact on the inputs in scope). -/
def roundHalfEven (q : ℚ) : ℤ :=
  let f := ⌊q⌋
  if q - f < 1 / 2 then f
  else if 1 / 2 < q - f then f + 1
  else if f % 2 = 0 then f else f + 1

/-- Left-pad a two-digit fractional part with a zero. -/
def pad2 (n : ℕ) : String :=
  if n < 10 then "0" ++ toString n else toString n

/-- Python `f"{x:.2f}"` on an exactly-representable value: fixed two
decimal places, ties to even. -/
def formatFixed2 (q : ℚ) : String :=
  let n := (roundHalfEven (|q| * 100)).toNat
  let s := toString (n / 100) ++ "." ++ pad2 (n % 100)
  if q < 0 then "-" ++ s else s

/-- The message built in `evaluar_y_notificar`:
`f"ALERTA: Sensor {s.id} en umbral (avg={s.promedio:.2f})"`. -/
def mensaje (s : Sensor) : String :=
  "ALERTA: Sensor " ++ s.id ++ " en umbral (avg=" ++
    formatFixed2 (promedio s) ++ ")"

/-- `class Alerta` fields: `sensor_id`, `mensaje`, `hora`, `nivel`. -/
structure Alerta where
  sensor_id : String
  mensaje : String
  hora : ℕ
  nivel : NivelAlerta
deriving DecidableEq, Repr

/-- `Alerta.es_critica`: `self.nivel == NivelAlerta.CRITICO`. -/
def es_critica (a : Alerta) : Bool :=
  a.nivel = NivelAlerta.CRITICO

/-- Constructing an `Alerta` the way `evaluar_y_notificar` does. In the
source, `class Alerta` (lines 94-100) carries bare field annotations but is
NOT decorated with `@dataclass` and defines no `__init__`, so the call
`Alerta(sensor_id=..., mensaje=..., hora=..., nivel=...)` falls through to
`object.__init__`, which accepts no arguments: Python raises
`TypeError: Alerta() takes no arguments`. This model returns that error. -/
def alertaInit (sensor_id mensaje : String) (hora : ℕ) (nivel : NivelAlerta) :
    Except String Alerta :=
  .error "TypeError: Alerta() takes no arguments"

/-- `class GestorAlertas` state: sensor list, notifier list (each notifier
identified by its destination string), alert history. -/
structure GestorAlertas where
  sensores : List Sensor
  notificadores : List String
  historial : List Alerta
deriving DecidableEq, Repr

/-- The effects of one evaluation pass: alerts appended to history, `enviar`
calls performed (destination, message), and the uncaught exception, if any,
that aborted the loop. -/
structure EvalOutcome where
  alertas : List Alerta
  envios : List (String × String)
  error : Option String
deriving DecidableEq, Repr

/-- The `for s in self._sensores` loop of `evaluar_y_notificar`: for each
sensor in alert, build the message, construct the `Alerta` (which raises,
aborting the loop: later sensors are not visited and this sensor performs
no sends), append it to history, then call `enviar(msg)` on every
notifier in registration order. -/
def evaluarLoop (notificadores : List String) (hora : ℕ) :
    List Sensor → EvalOutcome
  | [] => ⟨[], [], none⟩
  | s :: rest =>
    if en_alerta s then
      let msg := mensaje s
      match alertaInit s.id msg hora NivelAlerta.CRITICO with
      | .error e => ⟨[], [], some e⟩
      | .ok a =>
        let r := evaluarLoop notificadores hora rest
        ⟨a :: r.alertas, notificadores.map (fun n => (n, msg)) ++ r.envios,
          r.error⟩
    else evaluarLoop notificadores hora rest

/-- `GestorAlertas.evaluar_y_notificar`, returning the updated manager, the
list of performed `enviar` calls, and the uncaught exception if one was
raised. -/
def evaluar_y_notificar (g : GestorAlertas) (hora : ℕ) :
    GestorAlertas × List (String × String) × Option String :=
  let r := evaluarLoop g.notificadores hora g.sensores
  ({ g with historial := g.historial ++ r.alertas }, r.envios, r.error)

/-- Calling `evaluar_y_notificar` `n` times in a row (timestamps abstracted
to 0), accumulating all `enviar` calls. -/
def evaluarIter : GestorAlertas → ℕ → GestorAlertas × List (String × String)
  | g, 0 => (g, [])
  | g, n + 1 =>
    let r := evaluar_y_notificar g 0
    let rest := evaluarIter r.1 n
    (rest.1, r.2.1 ++ rest.2)

/-- A Temperature sensor "T1" whose buffer already holds the calibrated
readings [85, 85, 85] (so the average is 85) with threshold 80. -/
def sensorT1 : Sensor :=
  ⟨"T1", 5, 0, [85, 85, 85], .temperatura 80⟩

/-- A manager holding exactly `sensorT1` and two registered notifiers. -/
def gestorT1 : GestorAlertas :=
  ⟨[sensorT1], ["email1", "sms1"], []⟩

/-- A Pressure sensor with an empty buffer and the source's default bounds
(`presion_max = 100`, `presion_min = 1`): its average is 0, below
`presion_min`, so it is in alert. -/
def sensorP1 : Sensor :=
  ⟨"P1", 5, 0, [], .presion 100 1⟩

/-- A manager holding exactly `sensorP1` and one registered notifier. -/
def gestorP1 : GestorAlertas :=
  ⟨[sensorP1], ["hook"], []⟩

/-! ## Helper lemmas -/

theorem leer_ventana (s : Sensor) (v : ℚ) : (leer s v).ventana = s.ventana := by
  simp only [leer]
  split <;> rfl

theorem leer_calibracion (s : Sensor) (v : ℚ) :
    (leer s v).calibracion = s.calibracion := by
  simp only [leer]
  split <;> rfl

theorem leerAll_ventana (vs : List ℚ) :
    ∀ s : Sensor, (leerAll s vs).ventana = s.ventana := by
  induction vs with
  | nil => intro s; rfl
  | cons v vs ih =>
      intro s
      show (leerAll (leer s v) vs).ventana = s.ventana
      rw [ih, leer_ventana]

theorem leerAll_calibracion (vs : List ℚ) :
    ∀ s : Sensor, (leerAll s vs).calibracion = s.calibracion := by
  induction vs with
  | nil => intro s; rfl
  | cons v vs ih =>
      intro s
      show (leerAll (leer s v) vs).calibracion = s.calibracion
      rw [ih, leer_calibracion]

theorem leerAll_append (s : Sensor) (vs : List ℚ) (v : ℚ) :
    leerAll s (vs ++ [v]) = leer (leerAll s vs) v := by
  simp [leerAll, List.foldl_append]

/-- Core sliding-window lemma: feeding `vs` into a fresh sensor with positive
window `W` leaves the buffer holding exactly the last `min vs.length W.toNat`
calibrated readings, oldest first. -/
theorem leerAll_buffer (id : String) (W : ℤ) (c : ℚ) (k : SensorKind)
    (hW : 0 < W) (vs : List ℚ) :
    (leerAll ⟨id, W, c, [], k⟩ vs).buffer
      = (vs.map (fun x => x + c)).drop (vs.length - W.toNat) := by
  induction vs using List.reverseRecOn with
  | nil => simp [leerAll]
  | append_singleton vs v ih =>
      rw [leerAll_append]
      have hcal : (leerAll ⟨id, W, c, [], k⟩ vs).calibracion = c :=
        leerAll_calibracion vs _
      have hven : (leerAll ⟨id, W, c, [], k⟩ vs).ventana = W :=
        leerAll_ventana vs _
      have hlen : (leerAll ⟨id, W, c, [], k⟩ vs).buffer.length
          = vs.length - (vs.length - W.toNat) := by
        rw [ih]
        simp
      rcases Nat.lt_or_ge vs.length W.toNat with hlt | hge
      · have hcond : ¬ ((((leerAll ⟨id, W, c, [], k⟩ vs).buffer
            ++ [v + c]).length : ℤ) > W) := by
          simp [hlen]
          omega
        simp only [leer, hcal, hven]
        rw [if_neg hcond]
        simp only [ih]
        have h1 : vs.length - W.toNat = 0 := by omega
        have h2 : vs.length + 1 - W.toNat = 0 := by omega
        simp [h1, h2]
      · have hcond : ((((leerAll ⟨id, W, c, [], k⟩ vs).buffer
            ++ [v + c]).length : ℤ) > W) := by
          have hW' : ((W.toNat : ℤ)) = W := Int.toNat_of_nonneg (le_of_lt hW)
          simp [hlen]
          omega
        simp only [leer, hcal, hven]
        rw [if_pos hcond]
        simp only [ih, List.map_append, List.map_cons, List.map_nil,
          List.length_append, List.length_cons, List.length_nil]
        rw [List.drop_append_of_le_length (by simp; omega), List.drop_drop,
          List.drop_append_of_le_length (by simp; omega)]
        have hidx : vs.length + 1 - W.toNat = vs.length - W.toNat + 1 := by
          omega
        rw [hidx]

theorem leer_buffer_empty (s : Sensor) (v : ℚ) (hv : s.ventana ≤ 0)
    (hb : s.buffer = []) : (leer s v).buffer = [] := by
  have hc : ((1 : ℤ)) > s.ventana := by omega
  simp [leer, hb, hc]

theorem leerAll_buffer_empty (vs : List ℚ) :
    ∀ s : Sensor, s.ventana ≤ 0 → s.buffer = [] →
      (leerAll s vs).buffer = [] := by
  induction vs with
  | nil => intro s _ hb; exact hb
  | cons v vs ih =>
      intro s hv hb
      show (leerAll (leer s v) vs).buffer = []
      exact ih (leer s v) (by rw [leer_ventana]; exact hv)
        (leer_buffer_empty s v hv hb)

theorem evaluarLoop_no_alert (notifs : List String) (hora : ℕ) :
    ∀ ss : List Sensor, (∀ s ∈ ss, en_alerta s = false) →
      evaluarLoop notifs hora ss = ⟨[], [], none⟩ := by
  intro ss
  induction ss with
  | nil => intro _; rfl
  | cons s rest ih =>
      intro h
      have hs : en_alerta s = false := h s (by simp)
      have hr := ih (fun x hx => h x (by simp [hx]))
      simp [evaluarLoop, hs, hr]

theorem evaluar_no_alert (g : GestorAlertas) (hora : ℕ)
    (h : ∀ s ∈ g.sensores, en_alerta s = false) :
    evaluar_y_notificar g hora = (g, [], none) := by
  simp [evaluar_y_notificar,
    evaluarLoop_no_alert g.notificadores hora g.sensores h]

theorem en_alerta_sensorT1 : en_alerta sensorT1 = true := by
  simp [en_alerta, sensorT1, promedio]
  norm_num

/-- One evaluation pass over `gestorT1`: the Temperature sensor is in alert,
so the loop builds the message and then calls the argument-less `Alerta`
constructor with keyword arguments, raising TypeError — no send happens and
the history is unchanged. -/
theorem evaluarT1_eval :
    evaluar_y_notificar gestorT1 0
      = (gestorT1, [], some "TypeError: Alerta() takes no arguments") := by
  simp [evaluar_y_notificar, evaluarLoop, en_alerta_sensorT1, alertaInit,
    gestorT1]

/-! ## Claims -/

/-- C4: for every Temperature sensor state, `en_alerta` returns true iff the
current average is greater than or equal to the high threshold (the boundary
average = threshold triggers the alert). -/
theorem temperatura_en_alerta_iff (id : String) (W : ℤ) (c : ℚ) (b : List ℚ)
    (u : ℚ) :
    en_alerta ⟨id, W, c, b, .temperatura u⟩ = true ↔
      promedio ⟨id, W, c, b, .temperatura u⟩ ≥ u := by
  simp [en_alerta]

/-- C5: for every Pressure sensor state, `en_alerta` returns true iff the
current average is strictly below `presion_min` or strictly above
`presion_max`; averages exactly equal to either bound do not alert. -/
theorem presion_en_alerta_iff (id : String) (W : ℤ) (c : ℚ) (b : List ℚ)
    (pmax pmin : ℚ) :
    en_alerta ⟨id, W, c, b, .presion pmax pmin⟩ = true ↔
      (promedio ⟨id, W, c, b, .presion pmax pmin⟩ < pmin ∨
        promedio ⟨id, W, c, b, .presion pmax pmin⟩ > pmax) := by
  simp [en_alerta, not_and_or, not_le]

/-- C9: `promedio` returns exactly 0 when the buffer is empty and the
arithmetic mean of the buffer contents otherwise. -/
theorem promedio_spec (s : Sensor) :
    (s.buffer = [] → promedio s = 0) ∧
    (s.buffer ≠ [] → promedio s = s.buffer.sum / s.buffer.length) := by
  constructor <;> intro h <;> simp [promedio, h]

/-- Witness for C9: a sensor with empty buffer averages 0, one with buffer
[2, 3, 4] averages 3. -/
theorem promedio_spec_witness :
    promedio ⟨"S0", 5, 0, [], .temperatura 80⟩ = 0 ∧
    promedio ⟨"S1", 5, 0, [2, 3, 4], .temperatura 80⟩ = 3 := by
  constructor
  · exact (promedio_spec ⟨"S0", 5, 0, [], .temperatura 80⟩).1 rfl
  · have h := (promedio_spec ⟨"S1", 5, 0, [2, 3, 4], .temperatura 80⟩).2
      (by simp)
    rw [h]; norm_num

/-- C3: feeding any N raw readings into a fresh sensor with positive window
W leaves the buffer holding exactly the last min(N, W) calibrated readings
(raw + calibration offset), oldest first, with length min(N, W); and after
any prefix of the feed (any intermediate point) the buffer length is at most
W. -/
theorem leer_window (id : String) (W : ℤ) (c : ℚ) (k : SensorKind)
    (hW : 0 < W) (vs : List ℚ) (n : ℕ) :
    (leerAll ⟨id, W, c, [], k⟩ vs).buffer
        = (vs.map (fun x => x + c)).drop (vs.length - W.toNat) ∧
      (leerAll ⟨id, W, c, [], k⟩ vs).buffer.length = min vs.length W.toNat ∧
      (leerAll ⟨id, W, c, [], k⟩ (vs.take n)).buffer.length ≤ W.toNat := by
  refine ⟨leerAll_buffer id W c k hW vs, ?_, ?_⟩
  · rw [leerAll_buffer id W c k hW vs]
    simp
    omega
  · rw [leerAll_buffer id W c k hW (vs.take n)]
    simp
    omega

/-- Witness for C3: window 2, calibration +1, raw feed [10, 20, 30] leaves
buffer [21, 31] of length 2 = min 3 2, and the length-2 prefix keeps the
buffer within the window bound. -/
theorem leer_window_witness :
    (leerAll ⟨"S", 2, 1, [], .temperatura 0⟩ [10, 20, 30]).buffer
        = [21, 31] ∧
      (leerAll ⟨"S", 2, 1, [], .temperatura 0⟩ [10, 20, 30]).buffer.length
        = 2 ∧
      (leerAll ⟨"S", 2, 1, [], .temperatura 0⟩ [10, 20]).buffer.length
        ≤ 2 := by
  have h := leer_window "S" 2 1 (.temperatura 0) (by norm_num) [10, 20, 30] 2
  refine ⟨?_, ?_, ?_⟩
  · rw [h.1]
    norm_num
    decide
  · rw [h.2.1]
    decide
  · have h3 := h.2.2
    simpa using h3

/-- C6: for every Vibration sensor state, `en_alerta` is true iff the
absolute value of the signed average reaches `rms_umbral` — it does not use
`calcular_rms` — and on the buffer [3, -3, 3, -3] with threshold 5/2 the
sensor is not in alert even though the RMS value (radicand 9, so RMS 3) is
above the threshold. -/
theorem vibracion_en_alerta_spec :
    (∀ (id : String) (W : ℤ) (c : ℚ) (b : List ℚ) (r : ℚ),
      en_alerta ⟨id, W, c, b, .vibracion r⟩ = true ↔
        |promedio ⟨id, W, c, b, .vibracion r⟩| ≥ r) ∧
    en_alerta ⟨"V1", 5, 0, [3, -3, 3, -3], .vibracion (5 / 2)⟩ = false ∧
    calcular_rms_sq ⟨"V1", 5, 0, [3, -3, 3, -3], .vibracion (5 / 2)⟩
      ≥ (5 / 2) ^ 2 := by
  refine ⟨fun id W c b r => by simp [en_alerta], ?_, ?_⟩
  · simp [en_alerta, promedio]
  · simp [calcular_rms_sq]
    norm_num

/-- C10: a sensor constructed with a non-positive window has an always-empty
buffer: each `leer` appends and immediately evicts, so after one `leer` or
any sequence of them the buffer is empty and the average is 0. -/
theorem ventana_nonpos_invariant (s : Sensor) (hv : s.ventana ≤ 0)
    (hb : s.buffer = []) (v : ℚ) (vs : List ℚ) :
    (leer s v).buffer = [] ∧ promedio (leer s v) = 0 ∧
      (leerAll s vs).buffer = [] ∧ promedio (leerAll s vs) = 0 := by
  have h1 := leer_buffer_empty s v hv hb
  have h2 := leerAll_buffer_empty vs s hv hb
  exact ⟨h1, by simp [promedio, h1], h2, by simp [promedio, h2]⟩

/-- Witness for C10: window 0, feeding 7 then [1, 2] leaves the buffer empty
and the average 0. -/
theorem ventana_nonpos_invariant_witness :
    (leer ⟨"Z", 0, 0, [], .temperatura 80⟩ 7).buffer = [] ∧
      promedio (leer ⟨"Z", 0, 0, [], .temperatura 80⟩ 7) = 0 ∧
      (leerAll ⟨"Z", 0, 0, [], .temperatura 80⟩ [1, 2]).buffer = [] ∧
      promedio (leerAll ⟨"Z", 0, 0, [], .temperatura 80⟩ [1, 2]) = 0 :=
  ventana_nonpos_invariant ⟨"Z", 0, 0, [], .temperatura 80⟩ (by norm_num)
    rfl 7 [1, 2]

/-- C8: if no sensor of the manager is in alert, one `evaluar_y_notificar`
call performs no send, appends nothing to the history, raises nothing, and
leaves the manager unchanged; hence any number of calls leaves everything
unchanged with zero sends. -/
theorem no_alert_frame (g : GestorAlertas) (hora : ℕ) (n : ℕ)
    (h : ∀ s ∈ g.sensores, en_alerta s = false) :
    evaluar_y_notificar g hora = (g, [], none) ∧
      evaluarIter g n = (g, []) := by
  refine ⟨evaluar_no_alert g hora h, ?_⟩
  induction n with
  | zero => rfl
  | succ n ih => simp [evaluarIter, evaluar_no_alert g 0 h, ih]

/-- Witness for C8: a manager with one Temperature sensor averaging 10
(threshold 80, not in alert), evaluated once at time 5 and iterated 3
times: no send, no history entry, unchanged state. -/
theorem no_alert_frame_witness :
    evaluar_y_notificar ⟨[⟨"T", 3, 0, [10], .temperatura 80⟩], ["n1"], []⟩ 5
        = (⟨[⟨"T", 3, 0, [10], .temperatura 80⟩], ["n1"], []⟩, [], none) ∧
      evaluarIter ⟨[⟨"T", 3, 0, [10], .temperatura 80⟩], ["n1"], []⟩ 3
        = (⟨[⟨"T", 3, 0, [10], .temperatura 80⟩], ["n1"], []⟩, []) := by
  apply no_alert_frame
  intro s hs
  simp at hs
  subst hs
  simp [en_alerta, promedio]
  norm_num

/-- C1: on `gestorT1` (one Temperature sensor "T1" with calibrated buffer
[85, 85, 85] and threshold 80, two notifiers), one `evaluar_y_notificar`
call does NOT perform 2 sends and append 1 CRITICAL alert as the claim
states: the `Alerta(...)` keyword construction raises
`TypeError: Alerta() takes no arguments` (the class has no generated
`__init__`), so the call aborts with 0 sends and an unchanged history. -/
theorem evaluar_T1_typeerror :
    evaluar_y_notificar gestorT1 0
      = (gestorT1, [], some "TypeError: Alerta() takes no arguments") :=
  evaluarT1_eval

/-- C2: the alert-branch of `evaluar_y_notificar` fails rather than always
succeeding: on a manager whose Pressure sensor (empty buffer, average 0,
band [1, 100]) is in alert, the call raises TypeError instead of
completing. -/
theorem evaluar_alert_raises :
    en_alerta sensorP1 = true ∧
      (evaluar_y_notificar gestorP1 0).2.2
        = some "TypeError: Alerta() takes no arguments" := by
  have hp : en_alerta sensorP1 = true := by
    simp [en_alerta, sensorP1, promedio]
  exact ⟨hp, by simp [evaluar_y_notificar, evaluarLoop, hp, alertaInit,
    gestorP1]⟩

/-- C7: two successive `evaluar_y_notificar` calls on `gestorT1`, whose
sensor stays in alert, do NOT produce 2 alerts and 2×2 sends as the claim
states: each call raises TypeError, performs no send, and leaves the
history empty. -/
theorem evaluar_twice_typeerror :
    (evaluar_y_notificar gestorT1 0).2.1 = [] ∧
      (evaluar_y_notificar (evaluar_y_notificar gestorT1 0).1 0).2.1 = [] ∧
      (evaluar_y_notificar (evaluar_y_notificar gestorT1 0).1 0).1.historial
        = [] ∧
      (evaluar_y_notificar gestorT1 0).2.2
        = some "TypeError: Alerta() takes no arguments" ∧
      (evaluar_y_notificar (evaluar_y_notificar gestorT1 0).1 0).2.2
        = some "TypeError: Alerta() takes no arguments" := by
  rw [evaluarT1_eval]
  rw [evaluarT1_eval]
  simp [gestorT1]
